import Mathlib

/-!
# Verification of the gachapon game and marketplace programs

A shallow embedding of the two Solana programs in this repository:

* `programs/gachapon-game/src/lib.rs` — weighted prize draw, supply
  accounting, and play-session lifecycle;
* `programs/gachapon-marketplace/src/lib.rs` — NFT listing escrow with a
  2% platform fee.

Machine integers (`u16`, `u32`, `u64`, `u128`) are modelled as `ℕ` with
explicit bounds and explicit saturation/overflow where the source uses
`saturating_*` or `checked_*` operations.  Fallible instructions are
modelled as `Except ErrorCode σ`: an `Except.error` result corresponds to
an aborted (fully rolled back) transaction, so returning an error leaves
every account unchanged.  Cross-program invocations (token transfers, NFT
minting) and account-plumbing details (PDA bumps, signers, rent) are
external collaborators outside the embedded state, as are the Anchor
account constraints; the key-equality checks the instruction bodies
themselves perform are kept, with public keys abstracted as `ℕ`.
-/

deriving instance DecidableEq for Except

namespace Machine

/-- `u16::MAX`, the saturation bound of `u16::saturating_add`. -/
def U16_MAX : ℕ := 65535

/-- `2^32`, one past `u32::MAX`. -/
def U32_SIZE : ℕ := 4294967296

/-- `2^64`, one past `u64::MAX`. -/
def U64_SIZE : ℕ := 18446744073709551616

/-- `2^128`, one past `u128::MAX`. -/
def U128_SIZE : ℕ := 340282366920938463463374607431768211456

/-- `u16::saturating_add`: adds and clamps at `u16::MAX`. -/
def saturating_add_u16 (a b : ℕ) : ℕ := min (a + b) U16_MAX

/-- `u32::checked_add`: `none` when the sum does not fit in 32 bits. -/
def checked_add_u32 (a b : ℕ) : Option ℕ :=
  if a + b < U32_SIZE then some (a + b) else none

/-- `u64::checked_add`: `none` when the sum does not fit in 64 bits. -/
def checked_add_u64 (a b : ℕ) : Option ℕ :=
  if a + b < U64_SIZE then some (a + b) else none

/-- `checked_sub`: `none` on underflow. -/
def checked_sub (a b : ℕ) : Option ℕ :=
  if b ≤ a then some (a - b) else none

/-- Saturating subtraction; on `ℕ` truncated subtraction already clamps at 0. -/
def saturating_sub (a b : ℕ) : ℕ := a - b

/-- `u128::saturating_mul`: multiplies and clamps at `u128::MAX`. -/
def saturating_mul_u128 (a b : ℕ) : ℕ := min (a * b) (U128_SIZE - 1)

/-- `checked_div`: `none` exactly when the divisor is zero. -/
def checked_div (a b : ℕ) : Option ℕ :=
  if b = 0 then none else some (a / b)

/-- `u64::from_le_bytes`: little-endian interpretation of a byte list. -/
def u64_from_le_bytes (bs : List ℕ) : ℕ :=
  bs.foldr (fun b acc => b + 256 * acc) 0

end Machine

namespace GachaponGame

open Machine

/-- `MAX_PRIZES` from the game program. -/
def MAX_PRIZES : ℕ := 16

/-- The game program's `ErrorCode` enum. -/
inductive ErrorCode where
  | InvalidProbabilities
  | GameInactive
  | OutOfStock
  | Unauthorized
  | PrizeNotFound
  | InsufficientFunds
  | InvalidTokenAmount
  | MathOverflow
  | StringTooLong
  | TooManyPrizes
  | AlreadyFulfilled
  | NotFulfilled
  | NoPrize
  | AlreadyClaimed
  | NotClaimed
  | InvalidPrizeIndex
  deriving DecidableEq, Repr

/-- The `PrizeTier` enum. -/
inductive PrizeTier where
  | Common
  | Uncommon
  | Rare
  | Legendary
  deriving DecidableEq, Repr

/-- The `Game` account.  Pubkeys are abstracted as `ℕ`; the PDA `bump` is
account plumbing and is elided.  `prize_probabilities` is the fixed
16-entry `u16` array (entries `< 2^16` for states the program creates). -/
structure Game where
  authority : ℕ
  game_id : ℕ
  name : String
  description : String
  image_url : String
  token_mint : ℕ
  cost_usd : ℕ
  treasury : ℕ
  prize_count : ℕ
  prize_probabilities : List ℕ
  total_supply_remaining : ℕ
  total_plays : ℕ
  is_active : Bool
  last_random_value : List ℕ
  deriving DecidableEq, Repr

/-- The `Prize` account (PDA `bump` elided). -/
structure Prize where
  game : ℕ
  prize_index : ℕ
  prize_id : ℕ
  name : String
  description : String
  image_url : String
  metadata_uri : String
  physical_sku : String
  tier : PrizeTier
  probability_bp : ℕ
  cost_usd : ℕ
  weight_grams : ℕ
  length_hundredths : ℕ
  width_hundredths : ℕ
  height_hundredths : ℕ
  supply_total : ℕ
  supply_remaining : ℕ
  deriving DecidableEq, Repr

/-- The `PlaySession` account (PDA `bump` elided). -/
structure PlaySession where
  user : ℕ
  game : ℕ
  amount_paid : ℕ
  session_seed : List ℕ
  is_fulfilled : Bool
  random_value : List ℕ
  prize_index : Option ℕ
  is_claimed : Bool
  deriving DecidableEq, Repr

/-- The scanning loop of `select_prize_index`: walk the first `prize_count`
probability entries with index `idx` and the running `cumulative` total,
skipping zero-weight entries, accumulating with `u16::saturating_add`, and
returning the first index whose band covers `draw`. -/
def select_prize_loop (draw : ℕ) : List ℕ → ℕ → ℕ → Option ℕ
  | [], _, _ => none
  | prob :: rest, idx, cumulative =>
    if prob = 0 then select_prize_loop draw rest (idx + 1) cumulative
    else
      let c := saturating_add_u16 cumulative prob
      if draw < c then some idx else select_prize_loop draw rest (idx + 1) c

/-- `select_prize_index` from `gachapon-game/src/lib.rs`: interpret the
first 8 bytes of `random_value` as a little-endian `u64`, reduce modulo
10000, and scan the first `prize_count` probability entries. -/
def select_prize_index (probabilities : List ℕ) (prize_count : ℕ)
    (random_value : List ℕ) : Option ℕ :=
  let rand_u64 := u64_from_le_bytes (random_value.take 8)
  let draw := rand_u64 % 10000
  select_prize_loop draw (probabilities.take prize_count) 0 0

/-- Spec-side scanning loop, written from the spec's words: accumulate
basis-point weights with exact natural-number addition (no saturation),
skip zero-weight entries without consuming a probability band, and return
the first index with `draw < cumulative`. -/
def resolve_spec_loop (draw : ℕ) : List ℕ → ℕ → ℕ → Option ℕ
  | [], _, _ => none
  | prob :: rest, idx, cumulative =>
    if prob = 0 then resolve_spec_loop draw rest (idx + 1) cumulative
    else if draw < cumulative + prob then some idx
    else resolve_spec_loop draw rest (idx + 1) (cumulative + prob)

/-- Spec-side draw resolver, written from the spec's words: the first 8
bytes of the 32-byte random value read as an unsigned 64-bit little-endian
integer, reduced modulo 10000 to a draw in `[0, 9999]`, then the scan of
the occupied entries; `none` (no win) when the scan completes without a
hit. -/
def resolve_spec (probabilities : List ℕ) (prize_count : ℕ)
    (random_value : List ℕ) : Option ℕ :=
  let draw := u64_from_le_bytes (random_value.take 8) % 10000
  resolve_spec_loop draw (probabilities.take prize_count) 0 0

theorem select_prize_loop_eq_spec (draw : ℕ) (hdraw : draw < U16_MAX) :
    ∀ (l : List ℕ) (idx c : ℕ),
      select_prize_loop draw l idx (min c U16_MAX) = resolve_spec_loop draw l idx c := by
  intro l
  induction l with
  | nil => intro idx c; rfl
  | cons prob rest ih =>
    intro idx c
    by_cases hp : prob = 0
    · simp only [select_prize_loop, resolve_spec_loop, hp, if_true, ih]
    · have hsat : saturating_add_u16 (min c U16_MAX) prob = min (c + prob) U16_MAX := by
        unfold saturating_add_u16
        omega
      have htest : (draw < min (c + prob) U16_MAX) ↔ (draw < c + prob) := by
        unfold U16_MAX at hdraw ⊢
        omega
      by_cases hlt : draw < c + prob
      · simp only [select_prize_loop, resolve_spec_loop, hp, if_false, hsat,
          htest.mpr hlt, hlt, if_true]
      · simp only [select_prize_loop, resolve_spec_loop, hp, if_false, hsat]
        rw [if_neg (by simpa [htest] using hlt), if_neg hlt, ih]

theorem select_prize_index_eq_resolve_spec (probabilities : List ℕ)
    (prize_count : ℕ) (random_value : List ℕ) :
    select_prize_index probabilities prize_count random_value =
      resolve_spec probabilities prize_count random_value := by
  unfold select_prize_index resolve_spec
  have hdraw : u64_from_le_bytes (random_value.take 8) % 10000 < U16_MAX := by
    have hmod : u64_from_le_bytes (random_value.take 8) % 10000 < 10000 :=
      Nat.mod_lt _ (by omega)
    unfold U16_MAX
    omega
  have h := select_prize_loop_eq_spec _ hdraw (probabilities.take prize_count) 0 0
  simpa using h

/-- Instruction arguments of `add_prize`. -/
structure AddPrizeArgs where
  prize_index : ℕ
  prize_id : ℕ
  name : String
  description : String
  image_url : String
  metadata_uri : String
  physical_sku : String
  tier : PrizeTier
  probability_bp : ℕ
  cost_usd : ℕ
  weight_grams : ℕ
  length_hundredths : ℕ
  width_hundredths : ℕ
  height_hundredths : ℕ
  supply_total : ℕ
  deriving DecidableEq, Repr

/-- `initialize_game`: validates string lengths and builds the fresh game
state (no prizes, zero supply, inactive).  The authority check is an
account constraint and the `treasury`/`authority` keys come from the
accounts context, here passed as parameters. -/
def initialize_game (authority treasury : ℕ) (game_id : ℕ)
    (name description image_url : String) (cost_usd : ℕ) (token_mint : ℕ) :
    Except ErrorCode Game :=
  if ¬ (name.length ≤ 50) then .error .StringTooLong
  else if ¬ (description.length ≤ 200) then .error .StringTooLong
  else if ¬ (image_url.length ≤ 200) then .error .StringTooLong
  else .ok {
    authority := authority
    game_id := game_id
    name := name
    description := description
    image_url := image_url
    token_mint := token_mint
    cost_usd := cost_usd
    treasury := treasury
    prize_count := 0
    prize_probabilities := List.replicate MAX_PRIZES 0
    total_supply_remaining := 0
    total_plays := 0
    is_active := false
    last_random_value := List.replicate 32 0
  }

/-- `add_prize`: sequential-index and capacity checks, string-length
checks, the 10000 bp probability-budget check, then creation of the
`Prize` account and the game-side table/supply/activation updates.
`game_key` is the game account's address (`game.key()`). -/
def add_prize (game : Game) (game_key : ℕ) (a : AddPrizeArgs) :
    Except ErrorCode (Game × Prize) :=
  if ¬ (a.prize_index < MAX_PRIZES) then .error .TooManyPrizes
  else if ¬ (a.prize_index = game.prize_count) then .error .InvalidPrizeIndex
  else if ¬ (a.name.length ≤ 50) then .error .StringTooLong
  else if ¬ (a.description.length ≤ 150) then .error .StringTooLong
  else if ¬ (a.image_url.length ≤ 200) then .error .StringTooLong
  else if ¬ (a.metadata_uri.length ≤ 200) then .error .StringTooLong
  else if ¬ (a.physical_sku.length ≤ 50) then .error .StringTooLong
  else
    let current_total := game.prize_probabilities.sum
    match checked_add_u32 current_total a.probability_bp with
    | none => .error .MathOverflow
    | some new_total =>
      if ¬ (new_total ≤ 10000) then .error .InvalidProbabilities
      else
        let prize : Prize := {
          game := game_key
          prize_index := a.prize_index
          prize_id := a.prize_id
          name := a.name
          description := a.description
          image_url := a.image_url
          metadata_uri := a.metadata_uri
          physical_sku := a.physical_sku
          tier := a.tier
          probability_bp := a.probability_bp
          cost_usd := a.cost_usd
          weight_grams := a.weight_grams
          length_hundredths := a.length_hundredths
          width_hundredths := a.width_hundredths
          height_hundredths := a.height_hundredths
          supply_total := a.supply_total
          supply_remaining := a.supply_total
        }
        match checked_add_u32 game.total_supply_remaining a.supply_total with
        | none => .error .MathOverflow
        | some new_supply =>
          let game2 : Game := { game with
            prize_probabilities :=
              game.prize_probabilities.set a.prize_index a.probability_bp
            prize_count := a.prize_index + 1
            total_supply_remaining := new_supply
            is_active := if new_supply > 0 then true else game.is_active
          }
          .ok (game2, prize)

/-- `update_game_status`: unconditional assignment of `is_active` (the
authority check is an Anchor `has_one` account constraint). -/
def update_game_status (game : Game) (is_active : Bool) : Game :=
  { game with is_active := is_active }

/-- `replenish_prize_supply`: checks the prize belongs to the game, then
checked-adds `additional_supply` to the prize's total and remaining supply
and the game's total, reactivating an inactive game when the added amount
is positive. -/
def replenish_prize_supply (game : Game) (prize : Prize) (game_key : ℕ)
    (additional_supply : ℕ) : Except ErrorCode (Game × Prize) :=
  if ¬ (prize.game = game_key) then .error .Unauthorized
  else
    match checked_add_u32 prize.supply_total additional_supply with
    | none => .error .MathOverflow
    | some new_prize_total =>
      match checked_add_u32 prize.supply_remaining additional_supply with
      | none => .error .MathOverflow
      | some new_prize_remaining =>
        match checked_add_u32 game.total_supply_remaining additional_supply with
        | none => .error .MathOverflow
        | some new_game_total =>
          let game2 : Game := { game with
            total_supply_remaining := new_game_total
            is_active :=
              if additional_supply > 0 ∧ game.is_active = false then true
              else game.is_active
          }
          let prize2 : Prize := { prize with
            supply_total := new_prize_total
            supply_remaining := new_prize_remaining
          }
          .ok (game2, prize2)

/-- `finalize_play`: the state-changing core of the resolve step.
`prize_account` is `remaining_accounts[0]` deserialized as a `Prize`
(`none` when the win branch is entered without the 11 extra accounts).
The NFT-minting CPIs and PDA-derivation checks between the supply
decrement and the session/game updates only touch external state and are
elided; any failure there aborts the transaction wholesale, which the
`Except` result already models. -/
def finalize_play (game : Game) (play_session : PlaySession) (game_key : ℕ)
    (prize_account : Option Prize) (random_value : List ℕ) :
    Except ErrorCode (Game × PlaySession × Option Prize) :=
  if play_session.is_fulfilled then .error .AlreadyFulfilled
  else
    let winning_index :=
      select_prize_index game.prize_probabilities game.prize_count random_value
    match winning_index with
    | some prize_idx =>
      match prize_account with
      | none => .error .PrizeNotFound
      | some prize =>
        if ¬ (prize.game = game_key) then .error .Unauthorized
        else if ¬ (prize.prize_index = prize_idx) then .error .PrizeNotFound
        else if ¬ (prize.supply_remaining > 0) then .error .OutOfStock
        else
          match checked_sub prize.supply_remaining 1 with
          | none => .error .MathOverflow
          | some new_prize_supply =>
            match checked_add_u64 game.total_plays 1 with
            | none => .error .MathOverflow
            | some new_plays =>
              let total_supply := game.total_supply_remaining
              let new_total := saturating_sub total_supply 1
              let session2 : PlaySession := { play_session with
                is_fulfilled := true
                random_value := random_value
                prize_index := some prize_idx
                is_claimed := true
              }
              let game2 : Game := { game with
                total_plays := new_plays
                last_random_value := random_value
                total_supply_remaining := new_total
                is_active := if new_total = 0 then false else game.is_active
              }
              .ok (game2, session2,
                some { prize with supply_remaining := new_prize_supply })
    | none =>
      match checked_add_u64 game.total_plays 1 with
      | none => .error .MathOverflow
      | some new_plays =>
        let session2 : PlaySession := { play_session with
          is_fulfilled := true
          random_value := random_value
          prize_index := none
        }
        let game2 : Game := { game with
          total_plays := new_plays
          last_random_value := random_value
        }
        .ok (game2, session2, none)

/-- Sum of the game's probability table (the source's
`game.prize_probabilities.iter().map(|&p| p as u32).sum()`). -/
def game_weight_sum (game : Game) : ℕ := game.prize_probabilities.sum

/-- One `add_prize` transaction applied with rollback-on-error. -/
def apply_add_prize (game : Game) (game_key : ℕ) (a : AddPrizeArgs) : Game :=
  match add_prize game game_key a with
  | .ok (game2, _) => game2
  | .error _ => game

/-- A sequence of `add_prize` transactions, each rolled back on error. -/
def apply_add_seq (game : Game) (game_key : ℕ) (ops : List AddPrizeArgs) : Game :=
  ops.foldl (fun g a => apply_add_prize g game_key a) game

end GachaponGame

namespace GachaponMarketplace

open Machine

/-- `PLATFORM_FEE_BPS` from the marketplace program (2%). -/
def PLATFORM_FEE_BPS : ℕ := 200

/-- The marketplace program's `ErrorCode` enum. -/
inductive ErrorCode where
  | Unauthorized
  | ListingInactive
  | InvalidPrice
  | InvalidCurrency
  | MathOverflow
  deriving DecidableEq, Repr

/-- The `Listing` account (PDA `bump` elided); pubkeys abstracted as `ℕ`,
timestamps as `ℤ` (`i64`). -/
structure Listing where
  seller : ℕ
  nft_mint : ℕ
  currency_mint : ℕ
  price_in_tokens : ℕ
  is_active : Bool
  listed_at : ℤ
  cancelled_at : Option ℤ
  sold_at : Option ℤ
  buyer : Option ℕ
  deriving DecidableEq, Repr

/-- `list_nft`: requires a positive price and builds the active listing;
the NFT transfer into escrow is an external token-program call. -/
def list_nft (seller nft_mint currency_mint : ℕ) (price_in_tokens : ℕ)
    (now : ℤ) : Except ErrorCode Listing :=
  if ¬ (price_in_tokens > 0) then .error .InvalidPrice
  else .ok {
    seller := seller
    nft_mint := nft_mint
    currency_mint := currency_mint
    price_in_tokens := price_in_tokens
    is_active := true
    listed_at := now
    cancelled_at := none
    sold_at := none
    buyer := none
  }

/-- `cancel_listing`: requires an active listing, returns the escrowed NFT
(external transfer) and marks the listing cancelled. -/
def cancel_listing (listing : Listing) (now : ℤ) : Except ErrorCode Listing :=
  if ¬ listing.is_active then .error .ListingInactive
  else .ok { listing with
    is_active := false
    cancelled_at := some now
  }

/-- `buy_nft`: requires an active listing, a matching currency mint and a
platform treasury token account owned by the configured treasury; computes
`fee = price * 200 / 10000` with `u128::saturating_mul`, `checked_div` and
a cast back to `u64`, and `seller_amount = price - fee` with
`checked_sub`; the three token transfers are external calls.  Returns the
updated listing together with the `seller_amount` and `fee` transfer
amounts. -/
def buy_nft (listing : Listing) (buyer : ℕ) (currency_mint_key : ℕ)
    (treasury_account_owner config_platform_treasury : ℕ) (now : ℤ) :
    Except ErrorCode (Listing × ℕ × ℕ) :=
  if ¬ listing.is_active then .error .ListingInactive
  else if ¬ (currency_mint_key = listing.currency_mint) then .error .InvalidCurrency
  else if ¬ (treasury_account_owner = config_platform_treasury) then .error .Unauthorized
  else
    let price := listing.price_in_tokens
    match checked_div (saturating_mul_u128 price PLATFORM_FEE_BPS) 10000 with
    | none => .error .MathOverflow
    | some q =>
      let fee := q % U64_SIZE
      match checked_sub price fee with
      | none => .error .MathOverflow
      | some seller_amount =>
        let listing2 : Listing := { listing with
          is_active := false
          sold_at := some now
          buyer := some buyer
        }
        .ok (listing2, seller_amount, fee)

/-- `update_listing_price`: requires an active listing and a positive new
price. -/
def update_listing_price (listing : Listing) (new_price_in_tokens : ℕ) :
    Except ErrorCode Listing :=
  if ¬ listing.is_active then .error .ListingInactive
  else if ¬ (new_price_in_tokens > 0) then .error .InvalidPrice
  else .ok { listing with price_in_tokens := new_price_in_tokens }

/-- One marketplace instruction acting on a given listing. -/
inductive ListingOp where
  | updatePrice (new_price_in_tokens : ℕ)
  | cancel (now : ℤ)
  | buy (buyer currency_mint_key treasury_account_owner config_platform_treasury : ℕ)
        (now : ℤ)
  deriving DecidableEq, Repr

/-- One listing-mutating transaction applied with rollback-on-error. -/
def apply_listing_op (listing : Listing) (op : ListingOp) : Listing :=
  match op with
  | .updatePrice p =>
    match update_listing_price listing p with
    | .ok listing2 => listing2
    | .error _ => listing
  | .cancel now =>
    match cancel_listing listing now with
    | .ok listing2 => listing2
    | .error _ => listing
  | .buy buyer ck owner cfg now =>
    match buy_nft listing buyer ck owner cfg now with
    | .ok (listing2, _, _) => listing2
    | .error _ => listing

/-- A sequence of listing transactions, each rolled back on error. -/
def apply_listing_seq (listing : Listing) (ops : List ListingOp) : Listing :=
  ops.foldl apply_listing_op listing

/-- The listing state invariant used for induction: an active listing has
neither terminal timestamp, at most one of `cancelled_at`/`sold_at` is
set, and either being set forces inactivity. -/
def listing_invariant (l : Listing) : Prop :=
  (l.is_active = true → l.cancelled_at = none ∧ l.sold_at = none) ∧
  (l.cancelled_at = none ∨ l.sold_at = none) ∧
  ((l.cancelled_at ≠ none ∨ l.sold_at ≠ none) → l.is_active = false)

instance (l : Listing) : Decidable (listing_invariant l) := by
  unfold listing_invariant
  infer_instance

end GachaponMarketplace

namespace GachaponGame

open Machine

/-! ## Concrete example states used to instantiate the theorems -/

/-- A probability table with one prize at 10000 bp. -/
def exProbs : List ℕ := [10000, 0, 0, 0, 0, 0, 0, 0, 0, 0, 0, 0, 0, 0, 0, 0]

/-- A 32-byte random value of zeros (draw = 0). -/
def exZeroBytes : List ℕ := List.replicate 32 0

/-- A one-prize game with one unit of supply remaining. -/
def exGameBase : Game := {
  authority := 1
  game_id := 7
  name := ""
  description := ""
  image_url := ""
  token_mint := 2
  cost_usd := 5
  treasury := 3
  prize_count := 1
  prize_probabilities := exProbs
  total_supply_remaining := 1
  total_plays := 0
  is_active := true
  last_random_value := exZeroBytes
}

/-- The same game with the total-supply counter already at zero. -/
def exGameZeroSupply : Game := { exGameBase with total_supply_remaining := 0 }

/-- The same game, inactive with zero supply. -/
def exInactiveGame : Game :=
  { exGameBase with total_supply_remaining := 0, is_active := false }

/-- A freshly initialized game (no prizes yet). -/
def exFreshGame : Game := { exGameBase with
  prize_count := 0
  prize_probabilities := List.replicate 16 0
  total_supply_remaining := 0
  is_active := false
}

/-- The prize at index 0 of the example game, one unit in stock. -/
def exPrize : Prize := {
  game := 10
  prize_index := 0
  prize_id := 42
  name := ""
  description := ""
  image_url := ""
  metadata_uri := ""
  physical_sku := ""
  tier := .Common
  probability_bp := 10000
  cost_usd := 5
  weight_grams := 1
  length_hundredths := 1
  width_hundredths := 1
  height_hundredths := 1
  supply_total := 1
  supply_remaining := 1
}

/-- The same prize with its stock depleted. -/
def exPrizeDepleted : Prize := { exPrize with supply_remaining := 0 }

/-- A pending (unfulfilled) play session. -/
def exFreshSession : PlaySession := {
  user := 4
  game := 10
  amount_paid := 100
  session_seed := exZeroBytes
  is_fulfilled := false
  random_value := exZeroBytes
  prize_index := none
  is_claimed := false
}

/-- An already-fulfilled play session. -/
def exFulfilledSession : PlaySession := { exFreshSession with is_fulfilled := true }

/-- Arguments adding a 5000 bp prize with 3 units of supply at index 0. -/
def exAddArgs : AddPrizeArgs := {
  prize_index := 0
  prize_id := 42
  name := ""
  description := ""
  image_url := ""
  metadata_uri := ""
  physical_sku := ""
  tier := .Common
  probability_bp := 5000
  cost_usd := 5
  weight_grams := 1
  length_hundredths := 1
  width_hundredths := 1
  height_hundredths := 1
  supply_total := 3
}

/-- The game state after `exAddArgs` is added to `exFreshGame`. -/
def exGameAfterAdd : Game := { exFreshGame with
  prize_probabilities := (List.replicate 16 0).set 0 5000
  prize_count := 1
  total_supply_remaining := 3
  is_active := true
}

/-- The prize created by adding `exAddArgs` to `exFreshGame`. -/
def exPrizeAfterAdd : Prize := {
  game := 10
  prize_index := 0
  prize_id := 42
  name := ""
  description := ""
  image_url := ""
  metadata_uri := ""
  physical_sku := ""
  tier := .Common
  probability_bp := 5000
  cost_usd := 5
  weight_grams := 1
  length_hundredths := 1
  width_hundredths := 1
  height_hundredths := 1
  supply_total := 3
  supply_remaining := 3
}

/-! ## Claim theorems for the game program -/

/-- C1: the draw resolver interprets the first 8 bytes of the 32-byte
random value as an unsigned 64-bit little-endian integer, reduces modulo
10000 to a draw in [0, 9999], scans the occupied entries in index order
accumulating their basis-point weights, skips zero-weight entries without
consuming a probability band, returns the index of the first entry with
draw < cumulative, and returns no win when the scan completes without
such an entry: `select_prize_index` from the source coincides with the
resolver written from the spec's words (exact accumulation instead of the
source's `u16::saturating_add`, which can never clamp below a draw). -/
theorem select_prize_index_spec_equiv (probabilities : List ℕ)
    (prize_count : ℕ) (random_value : List ℕ)
    (_hcount : prize_count ≤ probabilities.length)
    (_hlen : random_value.length = 32)
    (_hbytes : ∀ b ∈ random_value, b < 256) :
    select_prize_index probabilities prize_count random_value =
      resolve_spec probabilities prize_count random_value :=
  select_prize_index_eq_resolve_spec probabilities prize_count random_value

theorem select_prize_index_spec_equiv_witness :
    (1 ≤ exProbs.length ∧ exZeroBytes.length = 32 ∧
      (∀ b ∈ exZeroBytes, b < 256)) ∧
    select_prize_index exProbs 1 exZeroBytes = resolve_spec exProbs 1 exZeroBytes :=
  ⟨by decide,
   select_prize_index_spec_equiv exProbs 1 exZeroBytes (by decide) (by decide)
     (by decide)⟩

/-- C2: `finalize_play` on a session whose fulfillment flag is already set
fails with `AlreadyFulfilled`; since an error aborts the transaction, the
session's winning prize index and all other session fields are left
unchanged. -/
theorem finalize_play_already_fulfilled (game : Game) (session : PlaySession)
    (game_key : ℕ) (prize_account : Option Prize) (random_value : List ℕ)
    (h : session.is_fulfilled = true) :
    finalize_play game session game_key prize_account random_value =
      .error .AlreadyFulfilled := by
  simp [finalize_play, h]

theorem finalize_play_already_fulfilled_witness :
    exFulfilledSession.is_fulfilled = true ∧
    finalize_play exGameBase exFulfilledSession 10 (some exPrize) exZeroBytes =
      .error .AlreadyFulfilled :=
  ⟨rfl,
   finalize_play_already_fulfilled exGameBase exFulfilledSession 10 (some exPrize)
     exZeroBytes rfl⟩

/-- C4: when the draw resolver selects a winning prize index whose prize
account has `supply_remaining = 0`, `finalize_play` fails with
`OutOfStock` rather than silently downgrading the outcome to a loss. -/
theorem finalize_play_out_of_stock (game : Game) (session : PlaySession)
    (game_key : ℕ) (prize : Prize) (random_value : List ℕ)
    (hf : session.is_fulfilled = false)
    (hwin : select_prize_index game.prize_probabilities game.prize_count
      random_value = some prize.prize_index)
    (hg : prize.game = game_key)
    (hs : prize.supply_remaining = 0) :
    finalize_play game session game_key (some prize) random_value =
      .error .OutOfStock := by
  simp [finalize_play, hf, hwin, hg, hs]

theorem finalize_play_out_of_stock_witness :
    (exFreshSession.is_fulfilled = false ∧
      select_prize_index exGameBase.prize_probabilities exGameBase.prize_count
        exZeroBytes = some exPrizeDepleted.prize_index ∧
      exPrizeDepleted.game = 10 ∧ exPrizeDepleted.supply_remaining = 0) ∧
    finalize_play exGameBase exFreshSession 10 (some exPrizeDepleted) exZeroBytes =
      .error .OutOfStock :=
  ⟨by decide,
   finalize_play_out_of_stock exGameBase exFreshSession 10 exPrizeDepleted
     exZeroBytes rfl (by decide) rfl rfl⟩

/-- C7: `add_prize` rejects an index at or beyond the fixed maximum of 16
with `TooManyPrizes` (the capacity check runs first), rejects any index
below the maximum that is not exactly the game's current `prize_count`
with `InvalidPrizeIndex`, and consequently any successful addition has
`prize_index = prize_count < 16`, so prizes can only be appended in order
without gaps or index reuse. -/
theorem add_prize_sequencing :
    (∀ (game : Game) (game_key : ℕ) (a : AddPrizeArgs),
      MAX_PRIZES ≤ a.prize_index →
      add_prize game game_key a = .error .TooManyPrizes) ∧
    (∀ (game : Game) (game_key : ℕ) (a : AddPrizeArgs),
      a.prize_index < MAX_PRIZES → a.prize_index ≠ game.prize_count →
      add_prize game game_key a = .error .InvalidPrizeIndex) ∧
    (∀ (game : Game) (game_key : ℕ) (a : AddPrizeArgs) (res : Game × Prize),
      add_prize game game_key a = .ok res →
      a.prize_index = game.prize_count ∧ a.prize_index < MAX_PRIZES) := by
  refine ⟨?_, ?_, ?_⟩
  · intro game game_key a h
    simp [add_prize, h, Nat.not_lt.mpr h]
  · intro game game_key a h1 h2
    simp [add_prize, h1, h2]
  · intro game game_key a res h
    by_cases h1 : a.prize_index < MAX_PRIZES
    · by_cases h2 : a.prize_index = game.prize_count
      · exact ⟨h2, h1⟩
      · simp [add_prize, h1, h2] at h
    · simp [add_prize, h1] at h

theorem add_prize_sequencing_witness :
    (MAX_PRIZES ≤ 16 ∧
      add_prize exFreshGame 10 { exAddArgs with prize_index := 16 } =
        .error .TooManyPrizes) ∧
    (3 < MAX_PRIZES ∧ (3 : ℕ) ≠ exFreshGame.prize_count ∧
      add_prize exFreshGame 10 { exAddArgs with prize_index := 3 } =
        .error .InvalidPrizeIndex) ∧
    (add_prize exFreshGame 10 exAddArgs = .ok (exGameAfterAdd, exPrizeAfterAdd) ∧
      exAddArgs.prize_index = exFreshGame.prize_count ∧
      exAddArgs.prize_index < MAX_PRIZES) :=
  ⟨⟨by decide,
    add_prize_sequencing.1 exFreshGame 10 { exAddArgs with prize_index := 16 }
      (by decide)⟩,
   ⟨by decide, by decide,
    add_prize_sequencing.2.1 exFreshGame 10 { exAddArgs with prize_index := 3 }
      (by decide) (by decide)⟩,
   ⟨by decide,
    add_prize_sequencing.2.2 exFreshGame 10 exAddArgs (exGameAfterAdd, exPrizeAfterAdd)
      (by decide)⟩⟩

/-- C10: `update_game_status` unconditionally sets `is_active` to the
caller-supplied boolean and changes no other game field; in particular,
on any game with `total_supply_remaining = 0` the authority can set
`is_active = true`, so zero remaining supply and inactivity are not kept
in correspondence by this instruction. -/
theorem update_game_status_only_flag (game : Game) (b : Bool) :
    (update_game_status game b).is_active = b ∧
    (update_game_status game b).authority = game.authority ∧
    (update_game_status game b).game_id = game.game_id ∧
    (update_game_status game b).name = game.name ∧
    (update_game_status game b).description = game.description ∧
    (update_game_status game b).image_url = game.image_url ∧
    (update_game_status game b).token_mint = game.token_mint ∧
    (update_game_status game b).cost_usd = game.cost_usd ∧
    (update_game_status game b).treasury = game.treasury ∧
    (update_game_status game b).prize_count = game.prize_count ∧
    (update_game_status game b).prize_probabilities = game.prize_probabilities ∧
    (update_game_status game b).total_supply_remaining = game.total_supply_remaining ∧
    (update_game_status game b).total_plays = game.total_plays ∧
    (update_game_status game b).last_random_value = game.last_random_value ∧
    (game.total_supply_remaining = 0 →
      (update_game_status game true).is_active = true ∧
      (update_game_status game true).total_supply_remaining = 0) :=
  ⟨rfl, rfl, rfl, rfl, rfl, rfl, rfl, rfl, rfl, rfl, rfl, rfl, rfl, rfl,
   fun h => ⟨rfl, h⟩⟩

theorem update_game_status_only_flag_witness :
    exGameZeroSupply.total_supply_remaining = 0 ∧
    (update_game_status exGameZeroSupply true).is_active = true ∧
    (update_game_status exGameZeroSupply true).total_supply_remaining = 0 :=
  ⟨rfl,
   (update_game_status_only_flag exGameZeroSupply
     true).2.2.2.2.2.2.2.2.2.2.2.2.2.2 rfl⟩

/-! ## Probability-budget invariant (C3) -/

theorem list_sum_set_le (l : List ℕ) (i b : ℕ) : (l.set i b).sum ≤ l.sum + b := by
  induction l generalizing i with
  | nil => simp
  | cons hd tl ih =>
    cases i with
    | zero => simp [List.set]; omega
    | succ n =>
      have h := ih n
      simp only [List.set, List.sum_cons]
      omega

/-- Inversion on a successful `add_prize`: the checks all passed, and the
resulting game carries the updated table, supply and activation flag. -/
theorem add_prize_ok_inversion {game : Game} {game_key : ℕ} {a : AddPrizeArgs}
    {game2 : Game} {prize2 : Prize}
    (h : add_prize game game_key a = .ok (game2, prize2)) :
    a.prize_index < MAX_PRIZES ∧ a.prize_index = game.prize_count ∧
    game.prize_probabilities.sum + a.probability_bp ≤ 10000 ∧
    game2.prize_probabilities =
      game.prize_probabilities.set a.prize_index a.probability_bp ∧
    game2.total_supply_remaining = game.total_supply_remaining + a.supply_total ∧
    (0 < game2.total_supply_remaining → game2.is_active = true) := by
  have h1 : a.prize_index < MAX_PRIZES := by
    by_contra hc; simp [add_prize, hc] at h
  have h2 : a.prize_index = game.prize_count := by
    by_contra hc; simp [add_prize, h1, hc] at h
  have h1c : game.prize_count < MAX_PRIZES := h2 ▸ h1
  have h3 : a.name.length ≤ 50 := by
    by_contra hc; simp [add_prize, h1, h1c, h2, hc] at h
  have h4 : a.description.length ≤ 150 := by
    by_contra hc; simp [add_prize, h1, h1c, h2, h3, hc] at h
  have h5 : a.image_url.length ≤ 200 := by
    by_contra hc; simp [add_prize, h1, h1c, h2, h3, h4, hc] at h
  have h6 : a.metadata_uri.length ≤ 200 := by
    by_contra hc; simp [add_prize, h1, h1c, h2, h3, h4, h5, hc] at h
  have h7 : a.physical_sku.length ≤ 50 := by
    by_contra hc; simp [add_prize, h1, h1c, h2, h3, h4, h5, h6, hc] at h
  have h8 : game.prize_probabilities.sum + a.probability_bp < U32_SIZE := by
    by_contra hc
    simp [add_prize, checked_add_u32, h1, h1c, h2, h3, h4, h5, h6, h7, hc] at h
  have h9 : game.prize_probabilities.sum + a.probability_bp ≤ 10000 := by
    by_contra hc
    simp [add_prize, checked_add_u32, h1, h1c, h2, h3, h4, h5, h6, h7, h8, hc] at h
  have h10 : game.total_supply_remaining + a.supply_total < U32_SIZE := by
    by_contra hc
    simp [add_prize, checked_add_u32, h1, h1c, h2, h3, h4, h5, h6, h7, h8, h9, hc] at h
  simp [add_prize, checked_add_u32, h1, h1c, h2, h3, h4, h5, h6, h7, h8, h9, h10] at h
  obtain ⟨hg, _hp⟩ := h
  subst hg
  refine ⟨h1, h2, h9, by simp [h2], by simp, ?_⟩
  intro hpos
  simp only [] at hpos ⊢
  simp at hpos ⊢
  simp [hpos]

theorem add_prize_ok_weight_sum {game : Game} {game_key : ℕ} {a : AddPrizeArgs}
    {res : Game × Prize} (h : add_prize game game_key a = .ok res) :
    game_weight_sum res.1 ≤ 10000 := by
  obtain ⟨game2, prize2⟩ := res
  obtain ⟨-, -, h9, hset, -, -⟩ := add_prize_ok_inversion h
  have hle := list_sum_set_le game.prize_probabilities a.prize_index
    a.probability_bp
  unfold game_weight_sum
  rw [hset]
  omega

theorem apply_add_prize_weight_sum (game : Game) (game_key : ℕ)
    (a : AddPrizeArgs) (h : game_weight_sum game ≤ 10000) :
    game_weight_sum (apply_add_prize game game_key a) ≤ 10000 := by
  unfold apply_add_prize
  split
  · next game2 prize heq => exact add_prize_ok_weight_sum heq
  · exact h

theorem apply_add_seq_weight_sum (game_key : ℕ) (ops : List AddPrizeArgs) :
    ∀ game : Game, game_weight_sum game ≤ 10000 →
      game_weight_sum (apply_add_seq game game_key ops) ≤ 10000 := by
  induction ops with
  | nil => intro game h; exact h
  | cons a rest ih =>
    intro game h
    exact ih (apply_add_prize game game_key a)
      (apply_add_prize_weight_sum game game_key a h)

/-- C3: an `add_prize` whose probability weight would push the table's
cumulative weight above 10000 basis points is rejected with
`InvalidProbabilities` (an error aborts the transaction, so no state is
mutated), and along every sequence of `add_prize` transactions — failing
ones rolled back — a game whose table sums to at most 10000 keeps that
bound, so after every successful sequence `sum(weights) ≤ 10000`. -/
theorem add_prize_probability_budget :
    (∀ (game : Game) (game_key : ℕ) (a : AddPrizeArgs),
      a.prize_index < MAX_PRIZES → a.prize_index = game.prize_count →
      a.name.length ≤ 50 → a.description.length ≤ 150 →
      a.image_url.length ≤ 200 → a.metadata_uri.length ≤ 200 →
      a.physical_sku.length ≤ 50 →
      game_weight_sum game + a.probability_bp < U32_SIZE →
      10000 < game_weight_sum game + a.probability_bp →
      add_prize game game_key a = .error .InvalidProbabilities) ∧
    (∀ (game : Game) (game_key : ℕ) (ops : List AddPrizeArgs),
      game_weight_sum game ≤ 10000 →
      game_weight_sum (apply_add_seq game game_key ops) ≤ 10000) := by
  constructor
  · intro game game_key a h1 h2 h3 h4 h5 h6 h7 h8 h9
    unfold game_weight_sum at h8 h9
    have hc : checked_add_u32 game.prize_probabilities.sum a.probability_bp =
        some (game.prize_probabilities.sum + a.probability_bp) := by
      unfold checked_add_u32
      rw [if_pos h8]
    simp [add_prize, h1, h2 ▸ h1, h2, h3, h4, h5, h6, h7, hc, Nat.not_le.mpr h9, h9]
  · intro game game_key ops h
    exact apply_add_seq_weight_sum game_key ops game h

theorem add_prize_probability_budget_witness :
    (exAddArgs.prize_index < MAX_PRIZES ∧
      exAddArgs.prize_index = exGameAfterAdd.prize_count - 1 ∧
      game_weight_sum exGameAfterAdd + 6000 < U32_SIZE ∧
      10000 < game_weight_sum exGameAfterAdd + 6000 ∧
      add_prize exGameAfterAdd 10
        { exAddArgs with prize_index := 1, probability_bp := 6000 } =
        .error .InvalidProbabilities) ∧
    (game_weight_sum exFreshGame ≤ 10000 ∧
      game_weight_sum (apply_add_seq exFreshGame 10
        [exAddArgs, { exAddArgs with prize_index := 1, probability_bp := 6000 },
         { exAddArgs with prize_index := 1, probability_bp := 5000 }]) ≤ 10000) :=
  ⟨⟨by decide, by decide, by decide, by decide,
    add_prize_probability_budget.1 exGameAfterAdd 10
      { exAddArgs with prize_index := 1, probability_bp := 6000 }
      (by decide) (by decide) (by decide) (by decide) (by decide) (by decide)
      (by decide) (by decide) (by decide)⟩,
   ⟨by decide,
    add_prize_probability_budget.2 exFreshGame 10
      [exAddArgs, { exAddArgs with prize_index := 1, probability_bp := 6000 },
       { exAddArgs with prize_index := 1, probability_bp := 5000 }] (by decide)⟩⟩

/-! ## Winning resolution and supply accounting (C5, C6) -/

/-- Forward computation of a winning `finalize_play`: under the guards the
instruction succeeds, decrements the prize's supply by one, bumps the play
counter, stores the random value, saturating-subtracts one from the game's
total supply and deactivates the game when that total reaches zero. -/
theorem finalize_play_win_eq (game : Game) (session : PlaySession)
    (game_key : ℕ) (prize : Prize) (random_value : List ℕ)
    (hf : session.is_fulfilled = false)
    (hwin : select_prize_index game.prize_probabilities game.prize_count
      random_value = some prize.prize_index)
    (hg : prize.game = game_key)
    (hs : 0 < prize.supply_remaining)
    (hp : game.total_plays + 1 < U64_SIZE) :
    finalize_play game session game_key (some prize) random_value =
      .ok ({ game with
              total_plays := game.total_plays + 1
              last_random_value := random_value
              total_supply_remaining := game.total_supply_remaining - 1
              is_active := if game.total_supply_remaining - 1 = 0 then false
                else game.is_active },
           { session with
              is_fulfilled := true
              random_value := random_value
              prize_index := some prize.prize_index
              is_claimed := true },
           some { prize with supply_remaining := prize.supply_remaining - 1 }) := by
  have hs1 : 1 ≤ prize.supply_remaining := hs
  simp [finalize_play, hf, hwin, hg, hs, hs1, hp, checked_sub, checked_add_u64,
    saturating_sub]

/-- Forward computation of a successful `replenish_prize_supply`. -/
theorem replenish_prize_supply_eq (game : Game) (prize : Prize)
    (game_key additional : ℕ) (hg : prize.game = game_key)
    (h1 : prize.supply_total + additional < U32_SIZE)
    (h2 : prize.supply_remaining + additional < U32_SIZE)
    (h3 : game.total_supply_remaining + additional < U32_SIZE) :
    replenish_prize_supply game prize game_key additional =
      .ok ({ game with
              total_supply_remaining := game.total_supply_remaining + additional
              is_active := if 0 < additional ∧ game.is_active = false then true
                else game.is_active },
           { prize with
              supply_total := prize.supply_total + additional
              supply_remaining := prize.supply_remaining + additional }) := by
  simp [replenish_prize_supply, hg, checked_add_u32, h1, h2, h3]

/-- C5: counterexample.  The claim states that the game's
`total_supply_remaining` decrement in `finalize_play` signals an
internal-consistency error rather than wrapping when the counter is
already 0.  In the code the game-level decrement is
`total_supply.saturating_sub(1)` (only the prize-level decrement is
`checked_sub`), so on a game whose total counter is already 0 while the
winning prize still has stock, `finalize_play` succeeds — no error is
signalled — and the total stays clamped at 0. -/
theorem finalize_play_total_saturates_cex :
    finalize_play exGameZeroSupply exFreshSession 10 (some exPrize) exZeroBytes =
      .ok ({ exGameZeroSupply with
              total_plays := 1
              last_random_value := exZeroBytes
              total_supply_remaining := 0
              is_active := false },
           { exFreshSession with
              is_fulfilled := true
              random_value := exZeroBytes
              prize_index := some 0
              is_claimed := true },
           some { exPrize with supply_remaining := 0 }) := by decide

/-- C5 (amended): on a win the prize's `supply_remaining` decrement uses
checked subtraction and is guarded by the `OutOfStock` check, so it never
wraps: the new prize supply is exactly one less.  The game's
`total_supply_remaining` decrement, however, uses saturating subtraction:
it clamps at 0 without signalling an error (`ℕ` truncated subtraction in
the conclusion is exactly that clamping). -/
theorem finalize_play_supply_decrement_semantics (game : Game)
    (session : PlaySession) (game_key : ℕ) (prize : Prize)
    (random_value : List ℕ)
    (hf : session.is_fulfilled = false)
    (hwin : select_prize_index game.prize_probabilities game.prize_count
      random_value = some prize.prize_index)
    (hg : prize.game = game_key)
    (hs : 0 < prize.supply_remaining)
    (hp : game.total_plays + 1 < U64_SIZE) :
    ∃ game2 session2 prize2,
      finalize_play game session game_key (some prize) random_value =
        .ok (game2, session2, some prize2) ∧
      prize2.supply_remaining + 1 = prize.supply_remaining ∧
      game2.total_supply_remaining =
        saturating_sub game.total_supply_remaining 1 :=
  ⟨_, _, _,
   finalize_play_win_eq game session game_key prize random_value hf hwin hg hs hp,
   (by show prize.supply_remaining - 1 + 1 = prize.supply_remaining; omega), rfl⟩

theorem finalize_play_supply_decrement_semantics_witness :
    (exFreshSession.is_fulfilled = false ∧ 0 < exPrize.supply_remaining) ∧
    (∃ game2 session2 prize2,
      finalize_play exGameBase exFreshSession 10 (some exPrize) exZeroBytes =
        .ok (game2, session2, some prize2) ∧
      prize2.supply_remaining + 1 = exPrize.supply_remaining ∧
      game2.total_supply_remaining =
        saturating_sub exGameBase.total_supply_remaining 1) :=
  ⟨⟨rfl, by decide⟩,
   finalize_play_supply_decrement_semantics exGameBase exFreshSession 10 exPrize
     exZeroBytes rfl (by decide) rfl (by decide) (by decide)⟩

/-- C6: supply/activation coupling.  (1) A winning `finalize_play` that
takes the game's total supply from 1 to 0 clears `is_active` in the same
transaction; (2) `replenish_prize_supply` adding a positive amount to an
inactive game sets `is_active` in the same transaction; (3) a successful
`add_prize` that leaves the total remaining supply positive leaves the
game active. -/
theorem supply_activation_coupling :
    (∀ (game : Game) (session : PlaySession) (game_key : ℕ) (prize : Prize)
        (random_value : List ℕ),
      session.is_fulfilled = false →
      select_prize_index game.prize_probabilities game.prize_count
        random_value = some prize.prize_index →
      prize.game = game_key → 0 < prize.supply_remaining →
      game.total_plays + 1 < U64_SIZE →
      game.total_supply_remaining = 1 →
      ∃ game2 session2 prize2,
        finalize_play game session game_key (some prize) random_value =
          .ok (game2, session2, some prize2) ∧
        game2.total_supply_remaining = 0 ∧ game2.is_active = false) ∧
    (∀ (game : Game) (prize : Prize) (game_key additional : ℕ),
      prize.game = game_key → 0 < additional →
      prize.supply_total + additional < U32_SIZE →
      prize.supply_remaining + additional < U32_SIZE →
      game.total_supply_remaining + additional < U32_SIZE →
      game.is_active = false →
      ∃ game2 prize2,
        replenish_prize_supply game prize game_key additional =
          .ok (game2, prize2) ∧
        game2.is_active = true) ∧
    (∀ (game : Game) (game_key : ℕ) (a : AddPrizeArgs) (game2 : Game)
        (prize2 : Prize),
      add_prize game game_key a = .ok (game2, prize2) →
      0 < game2.total_supply_remaining → game2.is_active = true) := by
  refine ⟨?_, ?_, ?_⟩
  · intro game session game_key prize random_value hf hwin hg hs hp htot
    refine ⟨_, _, _,
      finalize_play_win_eq game session game_key prize random_value hf hwin hg hs hp,
      ?_, ?_⟩
    · simp [htot]
    · simp [htot]
  · intro game prize game_key additional hg hpos h1 h2 h3 hina
    refine ⟨_, _,
      replenish_prize_supply_eq game prize game_key additional hg h1 h2 h3, ?_⟩
    simp [hina, hpos]
  · intro game game_key a game2 prize2 h hpos
    obtain ⟨-, -, -, -, -, hact⟩ := add_prize_ok_inversion h
    exact hact hpos

theorem supply_activation_coupling_witness :
    (exGameBase.total_supply_remaining = 1 ∧
      ∃ game2 session2 prize2,
        finalize_play exGameBase exFreshSession 10 (some exPrize) exZeroBytes =
          .ok (game2, session2, some prize2) ∧
        game2.total_supply_remaining = 0 ∧ game2.is_active = false) ∧
    (exInactiveGame.is_active = false ∧
      ∃ game2 prize2,
        replenish_prize_supply exInactiveGame exPrize 10 5 = .ok (game2, prize2) ∧
        game2.is_active = true) ∧
    exGameAfterAdd.is_active = true :=
  ⟨⟨rfl,
    supply_activation_coupling.1 exGameBase exFreshSession 10 exPrize exZeroBytes
      rfl (by decide) rfl (by decide) (by decide) rfl⟩,
   ⟨rfl,
    supply_activation_coupling.2.1 exInactiveGame exPrize 10 5 rfl (by decide)
      (by decide) (by decide) (by decide) rfl⟩,
   supply_activation_coupling.2.2 exFreshGame 10 exAddArgs exGameAfterAdd
     exPrizeAfterAdd (by decide) (by decide)⟩

end GachaponGame

namespace GachaponMarketplace

open Machine

/-! ## Marketplace claims (C8, C9) -/

/-- An active example listing at price 1000. -/
def exListing : Listing := {
  seller := 1
  nft_mint := 2
  currency_mint := 3
  price_in_tokens := 1000
  is_active := true
  listed_at := 0
  cancelled_at := none
  sold_at := none
  buyer := none
}

/-- An example op sequence: reprice, cancel, then a (rejected) buy. -/
def exOps : List ListingOp := [.updatePrice 500, .cancel 5, .buy 9 3 5 5 6]

/-- The fee computed by `buy_nft` never exceeds the price, for any `ℕ`
price: the 2% numerator is clamped by the saturating multiply, divided by
10000 and reduced mod `2^64`, each step non-increasing below `price`. -/
theorem buy_fee_le (price : ℕ) :
    saturating_mul_u128 price PLATFORM_FEE_BPS / 10000 % U64_SIZE ≤ price := by
  have h1 : saturating_mul_u128 price PLATFORM_FEE_BPS ≤ price * 200 := by
    unfold saturating_mul_u128 PLATFORM_FEE_BPS
    exact min_le_left _ _
  have h2 : saturating_mul_u128 price PLATFORM_FEE_BPS / 10000 ≤
      price * 200 / 10000 := Nat.div_le_div_right h1
  have h3 : price * 200 / 10000 ≤ price := by omega
  have h4 : saturating_mul_u128 price PLATFORM_FEE_BPS / 10000 % U64_SIZE ≤
      saturating_mul_u128 price PLATFORM_FEE_BPS / 10000 := Nat.mod_le _ _
  omega

/-- Forward computation of a successful `buy_nft` (no price bound needed
for success, since the fee never exceeds the price). -/
theorem buy_nft_ok_eq (l : Listing) (buyer ck owner cfg : ℕ) (now : ℤ)
    (ha : l.is_active = true) (hck : ck = l.currency_mint)
    (how : owner = cfg) :
    buy_nft l buyer ck owner cfg now =
      .ok ({ l with is_active := false, sold_at := some now, buyer := some buyer },
        l.price_in_tokens -
          saturating_mul_u128 l.price_in_tokens PLATFORM_FEE_BPS / 10000 % U64_SIZE,
        saturating_mul_u128 l.price_in_tokens PLATFORM_FEE_BPS / 10000 % U64_SIZE) := by
  have hfee := buy_fee_le l.price_in_tokens
  have hdiv : checked_div
      (saturating_mul_u128 l.price_in_tokens PLATFORM_FEE_BPS) 10000 =
      some (saturating_mul_u128 l.price_in_tokens PLATFORM_FEE_BPS / 10000) := by
    unfold checked_div
    rw [if_neg (by decide)]
  have hsub : checked_sub l.price_in_tokens
      (saturating_mul_u128 l.price_in_tokens PLATFORM_FEE_BPS / 10000 % U64_SIZE) =
      some (l.price_in_tokens -
        saturating_mul_u128 l.price_in_tokens PLATFORM_FEE_BPS / 10000 % U64_SIZE) := by
    unfold checked_sub
    rw [if_pos hfee]
  simp [buy_nft, ha, hck, how, hdiv, hsub]

/-- C8: buying an active listing at price `p` (a `u64` value) charges a
platform fee of exactly `⌊p * 200 / 10000⌋` and pays the seller exactly
`p` minus that fee. -/
theorem buy_nft_fee_split (listing : Listing)
    (buyer currency_mint_key owner cfg : ℕ) (now : ℤ)
    (ha : listing.is_active = true)
    (hc : currency_mint_key = listing.currency_mint)
    (ho : owner = cfg)
    (hp : listing.price_in_tokens < U64_SIZE) :
    ∃ listing2,
      buy_nft listing buyer currency_mint_key owner cfg now =
        .ok (listing2,
          listing.price_in_tokens - listing.price_in_tokens * 200 / 10000,
          listing.price_in_tokens * 200 / 10000) := by
  have hp64 : listing.price_in_tokens < 18446744073709551616 := hp
  have hmul : saturating_mul_u128 listing.price_in_tokens PLATFORM_FEE_BPS =
      listing.price_in_tokens * 200 := by
    unfold saturating_mul_u128 PLATFORM_FEE_BPS U128_SIZE
    exact min_eq_left (by omega)
  have hmod : listing.price_in_tokens * 200 / 10000 % U64_SIZE =
      listing.price_in_tokens * 200 / 10000 := by
    unfold U64_SIZE
    omega
  have heq := buy_nft_ok_eq listing buyer currency_mint_key owner cfg now ha hc ho
  rw [hmul, hmod] at heq
  exact ⟨_, heq⟩

theorem buy_nft_fee_split_witness :
    (exListing.is_active = true ∧ exListing.price_in_tokens = 1000 ∧
      exListing.price_in_tokens < U64_SIZE) ∧
    ∃ listing2,
      buy_nft exListing 9 3 5 5 1 = .ok (listing2, 980, 20) :=
  ⟨by decide, buy_nft_fee_split exListing 9 3 5 5 1 rfl rfl rfl (by decide)⟩

theorem list_nft_ok_invariant {seller nft_mint currency_mint price : ℕ}
    {now : ℤ} {l0 : Listing}
    (h : list_nft seller nft_mint currency_mint price now = .ok l0) :
    listing_invariant l0 := by
  unfold list_nft at h
  split at h
  · exact absurd h (by simp)
  · simp only [Except.ok.injEq] at h
    subst h
    simp [listing_invariant]

theorem apply_listing_op_invariant (l : Listing) (op : ListingOp)
    (h : listing_invariant l) : listing_invariant (apply_listing_op l op) := by
  obtain ⟨h1, h2, h3⟩ := h
  cases op with
  | updatePrice p =>
    simp only [apply_listing_op]
    unfold update_listing_price
    by_cases ha : l.is_active = true
    · rw [if_neg (not_not_intro ha)]
      by_cases hp : 0 < p
      · rw [if_neg (not_not_intro hp)]
        exact ⟨h1, h2, h3⟩
      · rw [if_pos hp]
        exact ⟨h1, h2, h3⟩
    · rw [if_pos ha]
      exact ⟨h1, h2, h3⟩
  | cancel t =>
    simp only [apply_listing_op]
    unfold cancel_listing
    by_cases ha : l.is_active = true
    · rw [if_neg (not_not_intro ha)]
      obtain ⟨hc0, hs0⟩ := h1 ha
      exact ⟨fun hfalse => absurd hfalse (by simp), Or.inr hs0, fun _ => rfl⟩
    · rw [if_pos ha]
      exact ⟨h1, h2, h3⟩
  | buy buyer ck owner cfg t =>
    by_cases ha : l.is_active = true
    · by_cases hck : ck = l.currency_mint
      · by_cases how : owner = cfg
        · simp only [apply_listing_op]
          rw [buy_nft_ok_eq l buyer ck owner cfg t ha hck how]
          obtain ⟨hc0, hs0⟩ := h1 ha
          exact ⟨fun hfalse => absurd hfalse (by simp), Or.inl hc0, fun _ => rfl⟩
        · simp only [apply_listing_op]
          unfold buy_nft
          rw [if_neg (not_not_intro ha), if_neg (not_not_intro hck), if_pos how]
          exact ⟨h1, h2, h3⟩
      · simp only [apply_listing_op]
        unfold buy_nft
        rw [if_neg (not_not_intro ha), if_pos hck]
        exact ⟨h1, h2, h3⟩
    · simp only [apply_listing_op]
      unfold buy_nft
      rw [if_pos ha]
      exact ⟨h1, h2, h3⟩

theorem apply_listing_seq_invariant (ops : List ListingOp) :
    ∀ l : Listing, listing_invariant l →
      listing_invariant (apply_listing_seq l ops) := by
  induction ops with
  | nil => intro l h; exact h
  | cons op rest ih =>
    intro l h
    exact ih (apply_listing_op l op) (apply_listing_op_invariant l op h)

/-- C9: every listing created by `list_nft` and carried through any
sequence of `update_listing_price`, `cancel_listing` and `buy_nft`
transactions (failing ones rolled back) has at most one of
`cancelled_at`/`sold_at` set, and if either is set the listing is
inactive. -/
theorem listing_terminal_states (seller nft_mint currency_mint price : ℕ)
    (now : ℤ) (l0 : Listing) (ops : List ListingOp)
    (h : list_nft seller nft_mint currency_mint price now = .ok l0) :
    ((apply_listing_seq l0 ops).cancelled_at = none ∨
      (apply_listing_seq l0 ops).sold_at = none) ∧
    (((apply_listing_seq l0 ops).cancelled_at ≠ none ∨
        (apply_listing_seq l0 ops).sold_at ≠ none) →
      (apply_listing_seq l0 ops).is_active = false) := by
  have hinv := apply_listing_seq_invariant ops l0 (list_nft_ok_invariant h)
  exact ⟨hinv.2.1, hinv.2.2⟩

theorem listing_terminal_states_witness :
    list_nft 1 2 3 1000 0 = .ok exListing ∧
    ((apply_listing_seq exListing exOps).cancelled_at = none ∨
      (apply_listing_seq exListing exOps).sold_at = none) ∧
    (((apply_listing_seq exListing exOps).cancelled_at ≠ none ∨
        (apply_listing_seq exListing exOps).sold_at ≠ none) →
      (apply_listing_seq exListing exOps).is_active = false) :=
  ⟨by decide, listing_terminal_states 1 2 3 1000 0 exListing exOps (by decide)⟩

end GachaponMarketplace
